import Mathlib

/-!
Verification of `src/neupy/network/constructor.py` (the `ConstructableNetwork`
core of the neupy repository) against its natural-language specification.

The file is a shallow embedding: Python objects become Lean structures, the
Theano computation graph becomes a small symbolic expression type evaluated
against an explicit interpretation of the (external) layer implementations,
Python exceptions become `Except` errors, and the mutable graph state
(parameter tensors plus the shared `step`/`epoch` scalar cells) is threaded
explicitly.  Functions of the repository that are imported by `constructor.py`
but are not part of the given source (`generate_layers`, `format_data`,
`does_layer_accept_1d_feature`, `BaseNetwork.on_epoch_start_update`) are
modelled from the spec and marked as such in their doc comments.
-/

namespace Neupy

/-- Runtime data flowing through a compiled procedure: either a 1-D feature
vector or a 2-D matrix.  Element values are integers; the claims under study
are about data flow and graph structure, never about floating-point
arithmetic, so an exact carrier is adequate. -/
inductive MLData
  | vec (v : List Int)
  | mat (m : List (List Int))
deriving DecidableEq, Repr

/-- A `Parameter`: a named mutable tensor owned by one layer.  Identified by a
numeric id; its current value lives in the mutable `NetState`, not here. -/
structure Param where
  id : Nat
deriving DecidableEq, Repr

/-- The slice of a layer object that `constructor.py` consumes: its identity,
whether it is an `Output` instance, whether it is a `Dropout` instance, the
rank of its `weight` tensor (`layer.weight.ndim`, read by
`create_input_variable`), whether it accepts 1-D features (consumed by the
spec-modelled `does_layer_accept_1d_feature`), and its ordered parameter
list. -/
structure Layer where
  id : Nat
  isOutput : Bool
  isDropout : Bool
  ndim : Nat
  accepts1d : Bool
  parameters : List Param
deriving DecidableEq, Repr

/-- A symbolic Theano expression as built by `constructor.py`: the network
input placeholder, with layer forward transforms applied on top.  `app i e`
is the result of `layer.output(e)` for the layer whose id is `i`. -/
inductive Expr
  | input
  | app (layerId : Nat) (e : Expr)
deriving DecidableEq, Repr

/-- `layer.output(expr)` applied symbolically during graph building. -/
def Layer.output (l : Layer) (e : Expr) : Expr := Expr.app l.id e

/-- Number of layer applications in an expression. -/
def Expr.size : Expr → Nat
  | .input => 0
  | .app _ e => e.size + 1

/-- The ids of all layers applied inside an expression. -/
def Expr.appIds : Expr → List Nat
  | .input => []
  | .app i e => i :: e.appIds

/-- Python exceptions that the embedded code can raise.
`networkConnectionError` is neupy's `NetworkConnectionError` (the class the
spec calls `NetworkConfigurationError`); `valueError` is the builtin
`ValueError` raised by `create_input_variable` on a bad rank (the condition
the spec calls `ShapeConfigurationError`); `typeError` is the builtin
`TypeError` (raised e.g. when a method is called with the wrong number of
positional arguments); `attributeError` / `indexError` are the builtin
attribute / index lookup failures. -/
inductive PyError
  | networkConnectionError
  | valueError
  | typeError
  | attributeError
  | indexError
deriving DecidableEq, Repr

/-- A pre-linked `LayerConnection` chain.  Any chain built by
`LayerConnection(left, right)` holds at least two layers, which the
representation enforces: `first`, `second`, then the remaining layers. -/
structure Chain where
  first : Layer
  second : Layer
  rest : List Layer
deriving DecidableEq, Repr

/-- Iterating a chain (`list(connection)`) yields its layers in order. -/
def Chain.toList (c : Chain) : List Layer := c.first :: c.second :: c.rest

/-- `connection.output_layer` of a linked chain: its terminal layer. -/
def Chain.output_layer (c : Chain) : Layer :=
  (c.second :: c.rest).getLast (List.cons_ne_nil _ _)

/-- The `connection` argument of `ConstructableNetwork.__init__` in the four
shapes `clean_layers` distinguishes: a list of integers, a list of layer
objects, a list whose first element is a `LayerConnection`, or a pre-linked
chain object. -/
inductive PyConnection
  | intList (ns : List Nat)
  | layerList (ls : List Layer)
  | connList (cs : List Chain)
  | chain (c : Chain)
deriving DecidableEq, Repr

/-- A default-activation (sigmoid-style) layer synthesized for unit count
`units` at pipeline position `i`; it owns a weight and a bias parameter. -/
def defaultLayer (i : Nat) (units : Nat) : Layer :=
  { id := i, isOutput := false, isDropout := false, ndim := 2,
    accepts1d := units == 1, parameters := [⟨2 * i⟩, ⟨2 * i + 1⟩] }

/-- The terminal `Output` layer synthesized for unit count `units` at
pipeline position `i`; it owns no parameters. -/
def outputLayerOf (i : Nat) (units : Nat) : Layer :=
  { id := i, isOutput := true, isDropout := false, ndim := 2,
    accepts1d := units == 1, parameters := [] }

/-- Modelled from the spec: `generate_layers` (neupy/layers/utils.py, imported
by `constructor.py` but not under src/).  Per §4.1, when the topology is a
sequence of integers "each integer is interpreted as a layer's unit count and
an implicit default-activation layer chain is synthesized, with the final
element wrapped as the Output layer".  The synthesized layer objects are
returned as a list, which `clean_layers` then links pairwise. -/
def generate_layers (ns : List Nat) : List Layer :=
  (List.range ns.length).zip ns |>.map fun p =>
    if p.1 + 1 == ns.length then outputLayerOf p.1 p.2 else defaultLayer p.1 p.2

/-- The list-of-layers branch of `clean_layers` (lines 45-58): pop the last
element, link the remaining layers onto it right-to-left with
`LayerConnection`, then validate `connection.output_layer`.
Python failure modes are mirrored exactly:
indexing `connection[0]` on an empty list raises `IndexError`; for a
single-element list the popped bare layer becomes the connection itself, and
reading `output_layer` from a bare layer raises `AttributeError` (per §3 the
Layer capability set is `{forward, initialize, parameters, input_rank,
output_rank}`; only a `LayerConnection` carries `output_layer`); for two or
more layers the linked chain's terminal is checked to be an `Output`
instance, signalling `NetworkConnectionError` otherwise. -/
def cleanLayerList : List Layer → Except PyError Chain
  | [] => .error .indexError
  | [_] => .error .attributeError
  | l1 :: l2 :: rest =>
    let c : Chain := ⟨l1, l2, rest⟩
    if c.output_layer.isOutput then .ok c else .error .networkConnectionError

/-- Embeds `clean_layers` (constructor.py lines 22-58).  A list of integers is
first expanded by `generate_layers`; a list whose head is a `LayerConnection`
is left untouched by both list branches, so line 54 then reads
`output_layer` off a Python list and raises `AttributeError` (after
`IndexError` on `connection[0]` when the list is empty); a pre-linked chain
is validated directly. -/
def clean_layers : PyConnection → Except PyError Chain
  | .intList ns => cleanLayerList (generate_layers ns)
  | .layerList ls => cleanLayerList ls
  | .connList cs => if cs.isEmpty then .error .indexError else .error .attributeError
  | .chain c =>
    if c.output_layer.isOutput then .ok c else .error .networkConnectionError

/-- A Theano tensor placeholder of rank 2 (`T.matrix`), 3 (`T.tensor3`) or
4 (`T.tensor4`), carrying its variable name. -/
inductive TensorVar
  | matrixVar (name : String)
  | tensor3Var (name : String)
  | tensor4Var (name : String)
deriving DecidableEq, Repr

/-- The tensor rank of a placeholder. -/
def TensorVar.rank : TensorVar → Nat
  | .matrixVar _ => 2
  | .tensor3Var _ => 3
  | .tensor4Var _ => 4

/-- Embeds `create_input_variable` (lines 61-85): the placeholder rank is
`input_layer.weight.ndim`; any rank outside {2, 3, 4} raises `ValueError`. -/
def create_input_variable (input_layer : Layer) (variable_name : String) :
    Except PyError TensorVar :=
  if input_layer.ndim = 2 then .ok (.matrixVar variable_name)
  else if input_layer.ndim = 3 then .ok (.tensor3Var variable_name)
  else if input_layer.ndim = 4 then .ok (.tensor4Var variable_name)
  else .error .valueError

/-- The slice of an error-function object that `constructor.py` consumes: an
optional `expected_dtype` capability (the `hasattr` check of
`create_output_variable`) and the two-argument loss evaluation
`(expected, predicted) -> scalar` applied when a compiled loss procedure
runs. -/
structure ErrorFn where
  expected_dtype : Option (String → TensorVar)
  apply : MLData → MLData → MLData

/-- Embeds `create_output_variable` (lines 88-107): use the error function's
`expected_dtype` when the attribute exists, else `T.matrix`. -/
def create_output_variable (error_function : ErrorFn) (variable_name : String) :
    TensorVar :=
  match error_function.expected_dtype with
  | some dtype => dtype variable_name
  | none => .matrixVar variable_name

/-- The two forward passes of `init_variables` (lines 238-243): starting from
the network input, thread `layer_input` (skipping `Dropout` instances) and
`train_layer_input` (through every layer) across the trainable sub-pipeline.
Returns `(prediction_func, train_prediction_func)`. -/
def forwardPair (train_layers : List Layer) : Expr × Expr :=
  train_layers.foldl
    (fun acc layer =>
      let layer_input := if layer.isDropout then acc.1 else layer.output acc.1
      let train_layer_input := layer.output acc.2
      (layer_input, train_layer_input))
    (Expr.input, Expr.input)

/-- The mutable graph state owned by one network instance: the current value
of every parameter tensor (by parameter id) and the two shared scalar cells
created in `init_variables` (`step` and `epoch`). -/
structure NetState where
  params : Nat → MLData
  stepVar : Int
  epochVar : Int

/-- The interpretation of the external layer implementations, which are out
of scope for this core: `layerFun i` is the runtime meaning of
`layer.output` for the layer with id `i`, as a function of the current
parameter values and the incoming data; `dropoutFun i` is the meaning of a
`Dropout` layer's forward, which additionally consumes the seed of the
pseudo-random draw made at that call. -/
structure Interp where
  layerFun : Nat → (Nat → MLData) → MLData → MLData
  dropoutFun : Nat → Nat → (Nat → MLData) → MLData → MLData

/-- Evaluation of a symbolic expression by the Theano runtime: each layer
application consults the interpretation, dispatching stochastic layers (those
whose id is in `dropIds`) through the seed-dependent `dropoutFun`. -/
def Expr.eval (itp : Interp) (dropIds : List Nat) (seed : Nat)
    (params : Nat → MLData) (x : MLData) : Expr → MLData
  | .input => x
  | .app lid e =>
    let v := Expr.eval itp dropIds seed params x e
    if lid ∈ dropIds then itp.dropoutFun lid seed params v
    else itp.layerFun lid params v

/-- An update rule handed to `theano.function(updates=...)`: the parameter to
overwrite, paired with the new-value expression — semantically a function of
the pre-call state and of the compiled function's input list. -/
abbrev UpdateRule := Param × (NetState → List MLData → MLData)

/-- Theano applies every update of a compiled function as a side effect of
the call: each new value is computed against the pre-call state, then stored
into the parameter cell. -/
def applyUpdates (rules : List UpdateRule) (σ : NetState) (inputs : List MLData) :
    NetState :=
  rules.foldl
    (fun acc r => { acc with params := Function.update acc.params r.1.id (r.2 σ inputs) })
    σ

/-- The per-parameter update hook as Python resolves it on the instance:
either a method declared with a single `parameter` argument — the shape of
the class's own default, line 313: `def init_param_updates(self, parameter)`
— or a method declared with two arguments `(layer, parameter)`, the shape
optimizer subclasses supply. -/
inductive ParamHook
  | oneArg (f : Param → List UpdateRule)
  | twoArg (f : Layer → Param → List UpdateRule)

/-- The default hook, `def init_param_updates(self, parameter): return []`
(line 313-314): a one-argument method whose body returns the empty list. -/
def default_init_param_updates : ParamHook := .oneArg (fun _ => [])

/-- The call site `self.init_param_updates(layer, parameter)` (line 310):
two positional arguments are passed.  A hook declared with one argument
raises `TypeError` (wrong number of positional arguments); a two-argument
hook runs its body. -/
def ParamHook.callWith2 (h : ParamHook) (layer : Layer) (parameter : Param) :
    Except PyError (List UpdateRule) :=
  match h with
  | .oneArg _ => .error .typeError
  | .twoArg f => .ok (f layer parameter)

/-- The loop of `init_layer_updates` (lines 308-311): `updates = []`, then
`updates.extend(self.init_param_updates(layer, parameter))` for each
parameter in declaration order, propagating any exception. -/
def paramLoop (h : ParamHook) (layer : Layer) (updates : List UpdateRule) :
    List Param → Except PyError (List UpdateRule)
  | [] => .ok updates
  | p :: ps =>
    match h.callWith2 layer p with
    | .error e => .error e
    | .ok us => paramLoop h layer (updates ++ us) ps

/-- Embeds `init_layer_updates` (lines 290-311). -/
def init_layer_updates (h : ParamHook) (layer : Layer) :
    Except PyError (List UpdateRule) :=
  paramLoop h layer [] layer.parameters

/-- The loop of `init_train_updates` (lines 285-288): `updates = []`, then
`updates.extend(self.init_layer_updates(layer))` for each trainable layer in
pipeline order, propagating any exception. -/
def layerLoop (h : ParamHook) (updates : List UpdateRule) :
    List Layer → Except PyError (List UpdateRule)
  | [] => .ok updates
  | l :: ls =>
    match init_layer_updates h l with
    | .error e => .error e
    | .ok us => layerLoop h (updates ++ us) ls

/-- Embeds `init_train_updates` (lines 281-288). -/
def init_train_updates (h : ParamHook) (train_layers : List Layer) :
    Except PyError (List UpdateRule) :=
  layerLoop h [] train_layers

/-- A compiled `theano.function`: its output expression and its update list.
For the two loss-returning procedures the stored expression is the predicted
side of `error_func`; the error function itself is applied at call time by
`TheanoFn.callLoss`, mirroring `error_func = self.error(network_output,
prediction)`. -/
structure TheanoFn where
  outputs : Expr
  updates : List UpdateRule

/-- The three compiled procedures built by `init_methods` (lines 253-272). -/
structure Methods where
  predict_raw : TheanoFn
  train_epoch : TheanoFn
  prediction_error : TheanoFn

/-- The symbolic variables built in `__init__` and `init_variables`. -/
structure Variables where
  network_input : TensorVar
  network_output : TensorVar
  prediction_func : Expr
  train_prediction_func : Expr
deriving DecidableEq, Repr

/-- Construction-time configuration consumed from `BaseNetwork`: the `step`
scalar and the initial `last_epoch` value, both copied into shared cells by
`init_variables`. -/
structure NetConfig where
  step : Int
  last_epoch : Int
deriving DecidableEq, Repr

/-- A fully constructed `ConstructableNetwork` instance. -/
structure Network where
  connection : Chain
  layers : List Layer
  input_layer : Layer
  hidden_layers : List Layer
  output_layer : Layer
  train_layers : List Layer
  error : ErrorFn
  step : Int
  last_epoch : Int
  vars : Variables
  methods : Methods

/-- Assembles the network record exactly as `__init__`, `init_variables` and
`init_methods` do once every fallible step has succeeded: `layers =
list(self.connection)`, `input_layer = layers[0]`, `hidden_layers =
layers[1:-1]`, `output_layer = layers[-1]` (the chain's terminal),
`train_layers = layers[:-1]`; `prediction_func`/`train_prediction_func` from
the two forward passes; `predict_raw` and `prediction_error` compiled with no
updates, `train_epoch` compiled with the generated update list. -/
def mkNetwork (c : Chain) (err : ErrorFn) (cfg : NetConfig) (inputVar : TensorVar)
    (updates : List UpdateRule) : Network :=
  let train_layers := c.toList.dropLast
  let fp := forwardPair train_layers
  { connection := c
    layers := c.toList
    input_layer := c.first
    hidden_layers := c.toList.dropLast.tail
    output_layer := c.output_layer
    train_layers := train_layers
    error := err
    step := cfg.step
    last_epoch := cfg.last_epoch
    vars :=
      { network_input := inputVar
        network_output := create_output_variable err "y"
        prediction_func := fp.1
        train_prediction_func := fp.2 }
    methods :=
      { predict_raw := { outputs := fp.1, updates := [] }
        train_epoch := { outputs := fp.2, updates := updates }
        prediction_error := { outputs := fp.2, updates := [] } } }

/-- Embeds `ConstructableNetwork.__init__` (lines 200-230) with the
per-parameter hook supplied explicitly (the class default or a subclass
override): `clean_layers` runs first; `create_input_variable` runs before
`init_methods`, so a rank failure precedes any compilation; evaluating
`init_train_updates()` inside `init_methods` is the last fallible step.
`init_layers` calls each trainable layer's external `initialize()`, whose
effect lives in the quantified initial parameter state. -/
def construct (hook : ParamHook) (conn : PyConnection) (err : ErrorFn)
    (cfg : NetConfig) : Except PyError Network :=
  match clean_layers conn with
  | .error e => .error e
  | .ok c =>
    match create_input_variable c.first "x" with
    | .error e => .error e
    | .ok inputVar =>
      match init_train_updates hook c.toList.dropLast with
      | .error e => .error e
      | .ok updates => .ok (mkNetwork c err cfg inputVar updates)

/-- The shared cells created by `init_variables` (lines 245-247):
`step` initialized to `asfloat(self.step)` and `epoch` to `self.last_epoch`;
the parameter cells start at whatever the external `layer.initialize()`
calls produced. -/
def Network.initial_state (net : Network) (params0 : Nat → MLData) : NetState :=
  { params := params0, stepVar := net.step, epochVar := net.last_epoch }

/-- The ids of the network's stochastic (Dropout) layers. -/
def Network.dropoutIds (net : Network) : List Nat :=
  (net.layers.filter (fun l => l.isDropout)).map (fun l => l.id)

/-- Calling a compiled single-input procedure (`predict_raw`): evaluate the
output expression against the current state, then apply the (empty) update
list. -/
def TheanoFn.callPredict (f : TheanoFn) (itp : Interp) (dropIds : List Nat)
    (seed : Nat) (σ : NetState) (x : MLData) : MLData × NetState :=
  (f.outputs.eval itp dropIds seed σ.params x, applyUpdates f.updates σ [x])

/-- Calling a compiled loss procedure (`train_epoch`, `prediction_error`):
the returned loss is `error(network_output, prediction)` computed against the
pre-call parameter values, and every update is applied as a side effect of
the same call. -/
def TheanoFn.callLoss (f : TheanoFn) (itp : Interp) (dropIds : List Nat)
    (err : ErrorFn) (seed : Nat) (σ : NetState) (x y : MLData) :
    MLData × NetState :=
  (err.apply y (f.outputs.eval itp dropIds seed σ.params x),
   applyUpdates f.updates σ [x, y])

/-- Modelled from the spec: `format_data` (neupy.utils, imported by
`constructor.py` but not under src/) — the "data formatting/reshaping
utilities" that reshape inputs "per layer-rank expectations".  A 1-D vector
is reshaped into a 2-D column matrix (one sample per row) when the receiving
layer accepts 1-D features, and into a single-row matrix otherwise; 2-D data
passes through.  The Python default for `is_feature1d` is true, which is what
the bare calls `format_data(input_data)` in `prediction_error` use. -/
def format_data (data : MLData) (is_feature1d : Bool) : MLData :=
  match data with
  | .vec v => if is_feature1d then .mat (v.map (fun a => [a])) else .mat [v]
  | .mat m => .mat m

/-- Modelled from the spec: `does_layer_accept_1d_feature` (neupy.utils, not
under src/) — reads whether the given layer accepts a 1-D feature, a
capability recorded on the layer object. -/
def does_layer_accept_1d_feature (l : Layer) : Bool := l.accepts1d

/-- Embeds `ConstructableNetwork.predict_raw` (lines 323-328): format the
input for the input layer, then call the compiled `predict_raw`. -/
def Network.predict_raw (net : Network) (itp : Interp) (seed : Nat)
    (σ : NetState) (input_data : MLData) : MLData × NetState :=
  let is_feature1d := does_layer_accept_1d_feature net.input_layer
  let input_data := format_data input_data is_feature1d
  net.methods.predict_raw.callPredict itp net.dropoutIds seed σ input_data

/-- Running `layer.output` on concrete data (duck-typed in Python: the same
method that builds graph nodes also maps numpy arrays), via the
interpretation of the external layer implementations. -/
def Layer.outputData (l : Layer) (itp : Interp) (seed : Nat)
    (params : Nat → MLData) (v : MLData) : MLData :=
  if l.isDropout then itp.dropoutFun l.id seed params v
  else itp.layerFun l.id params v

/-- Embeds `ConstructableNetwork.predict` (lines 330-336): call
`predict_raw`, then apply the terminal layer's own forward transform to the
raw result. -/
def Network.predict (net : Network) (itp : Interp) (seed : Nat)
    (σ : NetState) (input_data : MLData) : MLData × NetState :=
  let raw := net.predict_raw itp seed σ input_data
  (net.output_layer.outputData itp seed raw.2.params raw.1, raw.2)

/-- Embeds `ConstructableNetwork.prediction_error` (lines 316-321): format
both arguments (with the Python default `is_feature1d=True`), then call the
compiled no-update loss procedure. -/
def Network.prediction_error (net : Network) (itp : Interp) (seed : Nat)
    (σ : NetState) (input_data target_data : MLData) : MLData × NetState :=
  let input_data := format_data input_data true
  let target_data := format_data target_data true
  net.methods.prediction_error.callLoss itp net.dropoutIds net.error seed σ
    input_data target_data

/-- Embeds `ConstructableNetwork.train_epoch` (lines 372-373): the arguments
are handed to the compiled training procedure as they are, with no
`format_data` call. -/
def Network.train_epoch (net : Network) (itp : Interp) (seed : Nat)
    (σ : NetState) (input_train target_train : MLData) : MLData × NetState :=
  net.methods.train_epoch.callLoss itp net.dropoutIds net.error seed σ
    input_train target_train

/-- Embeds `ConstructableNetwork.train` (lines 350-370) up to its delegation:
both training arguments (and the optional test arguments) are formatted
against the input and output layers' 1-D-feature capability, and the
formatted tuple is what `super().train(...)` — the excluded outer
epoch-driving loop — receives. -/
def Network.train (net : Network) (input_train target_train : MLData)
    (input_test target_test : Option MLData) :
    MLData × MLData × Option MLData × Option MLData :=
  let is_input_feature1d := does_layer_accept_1d_feature net.input_layer
  let is_target_feature1d := does_layer_accept_1d_feature net.output_layer
  (format_data input_train is_input_feature1d,
   format_data target_train is_target_feature1d,
   input_test.map (fun d => format_data d is_input_feature1d),
   target_test.map (fun d => format_data d is_target_feature1d))

/-- Modelled from the spec: `BaseNetwork.on_epoch_start_update`
(neupy/network/base.py, not under src/).  Per §4.5 "on each epoch boundary
the orchestrator pushes the current epoch index and current step
(learning-rate-like scalar) into the graph's corresponding mutable scalar
variables"; the base class contributes the step write (the subclass override
below contributes the epoch write). -/
def base_on_epoch_start_update (net : Network) (_epoch : Int) (σ : NetState) :
    NetState :=
  { σ with stepVar := net.step }

/-- Embeds `ConstructableNetwork.on_epoch_start_update` (lines 338-348):
delegate to the base class, then store the epoch index into the shared
`epoch` cell. -/
def Network.on_epoch_start_update (net : Network) (epoch : Int) (σ : NetState) :
    NetState :=
  let σ2 := base_on_epoch_start_update net epoch σ
  { σ2 with epochVar := epoch }

/-! ### Concrete objects used by witnesses -/

/-- A hidden layer with one parameter (id 10), sigmoid-style. -/
def demoHidden : Layer :=
  { id := 0, isOutput := false, isDropout := false, ndim := 2,
    accepts1d := false, parameters := [⟨10⟩] }

/-- A second hidden layer with two parameters. -/
def demoHidden2 : Layer :=
  { id := 1, isOutput := false, isDropout := false, ndim := 2,
    accepts1d := false, parameters := [⟨11⟩, ⟨12⟩] }

/-- A terminal `Output` layer with no parameters of its own. -/
def demoOut : Layer :=
  { id := 2, isOutput := true, isDropout := false, ndim := 2,
    accepts1d := true, parameters := [] }

/-- A `Dropout` layer. -/
def demoDrop : Layer :=
  { id := 3, isOutput := false, isDropout := true, ndim := 2,
    accepts1d := false, parameters := [] }

/-- An error function with no `expected_dtype` capability whose loss is the
predicted value itself. -/
def demoErr : ErrorFn := { expected_dtype := none, apply := fun _ p => p }

/-- Concrete construction-time configuration. -/
def demoCfg : NetConfig := { step := 1, last_epoch := 0 }

/-- A concrete interpretation of the external layers: layer `i` maps any
data to the vector `[i]`; a dropout layer additionally records the seed of
its random draw, making its training behavior non-identity and
seed-sensitive. -/
def demoItp : Interp :=
  { layerFun := fun i _ _ => .vec [Int.ofNat i]
    dropoutFun := fun i s _ _ => .vec [Int.ofNat i, Int.ofNat s] }

/-- A concrete graph state. -/
def demoState : NetState :=
  { params := fun _ => .vec [], stepVar := 5, epochVar := 7 }

/-- A concrete two-argument per-parameter hook of the shape optimizer
subclasses supply: one rule per parameter, keeping the parameter's current
value. -/
def demoHook : Layer → Param → List UpdateRule :=
  fun _ p => [(p, fun σ _ => σ.params p.id)]

/-- The two-layer chain `[demoHidden, demoOut]` after normalization. -/
def demoChain : Chain := ⟨demoHidden, demoOut, []⟩

/-- The update list `construct` generates for `demoChain` under
`demoHook`. -/
def demoUpdates : List UpdateRule := demoHook demoHidden ⟨10⟩

/-- The network `construct` builds from `demoChain` under `demoHook`. -/
def demoNet : Network := mkNetwork demoChain demoErr demoCfg (.matrixVar "x") demoUpdates

/-! ### Helper lemmas -/

/-- The paired fold of `init_variables` computes, componentwise, the
inference pass (a fold over the non-Dropout layers) and the training pass
(a fold over all layers). -/
lemma foldl_forward_pair (ls : List Layer) (a b : Expr) :
    ls.foldl
      (fun acc layer =>
        ((if layer.isDropout then acc.1 else layer.output acc.1 : Expr),
         layer.output acc.2))
      (a, b) =
    ((ls.filter fun l => !l.isDropout).foldl (fun e l => l.output e) a,
     ls.foldl (fun e l => l.output e) b) := by
  induction ls generalizing a b with
  | nil => rfl
  | cons l t ih =>
    by_cases h : l.isDropout
    · simp [List.filter_cons, h, ih]
    · simp [List.filter_cons, h, ih]

/-- `forwardPair` split into its two independent passes. -/
lemma forwardPair_eq (ls : List Layer) :
    forwardPair ls =
      ((ls.filter fun l => !l.isDropout).foldl (fun e l => l.output e) Expr.input,
       ls.foldl (fun e l => l.output e) Expr.input) := by
  simpa [forwardPair] using foldl_forward_pair ls .input .input

/-- The size of a folded forward pass: one application per layer. -/
lemma size_foldl_output (ls : List Layer) (a : Expr) :
    (ls.foldl (fun e l => l.output e) a).size = ls.length + a.size := by
  induction ls generalizing a with
  | nil => simp
  | cons l t ih =>
    rw [List.foldl_cons, ih]
    have h1 : (Layer.output l a).size = a.size + 1 := rfl
    rw [h1]
    simp
    omega

/-- The layer ids applied by a folded forward pass are the ids of the folded
layers, plus whatever the seed expression already applied. -/
lemma mem_appIds_foldl (ls : List Layer) (a : Expr) (i : Nat) :
    i ∈ (ls.foldl (fun e l => l.output e) a).appIds ↔
      (∃ l ∈ ls, l.id = i) ∨ i ∈ a.appIds := by
  induction ls generalizing a with
  | nil => simp
  | cons l t ih =>
    rw [List.foldl_cons, ih]
    have h1 : i ∈ (Layer.output l a).appIds ↔ i = l.id ∨ i ∈ a.appIds := by
      simp [Layer.output, Expr.appIds]
    rw [h1]
    simp only [List.mem_cons]
    constructor
    · rintro (⟨l2, hl2, hi⟩ | (rfl | hi))
      · exact .inl ⟨l2, .inr hl2, hi⟩
      · exact .inl ⟨l, .inl rfl, rfl⟩
      · exact .inr hi
    · rintro (⟨l2, (rfl | hl2), hi⟩ | hi)
      · exact .inr (.inl hi.symm)
      · exact .inl ⟨l2, hl2, hi⟩
      · exact .inr (.inr hi)

/-- Evaluation of an expression that applies no stochastic layer does not
depend on the seed of the random draw. -/
lemma eval_seed_irrel (itp : Interp) (dropIds : List Nat) (params : Nat → MLData)
    (x : MLData) (e : Expr) (h : ∀ i ∈ e.appIds, i ∉ dropIds) (s1 s2 : Nat) :
    e.eval itp dropIds s1 params x = e.eval itp dropIds s2 params x := by
  induction e with
  | input => rfl
  | app i e ih =>
    have hi : i ∉ dropIds := h i (by simp [Expr.appIds])
    have he : ∀ j ∈ e.appIds, j ∉ dropIds :=
      fun j hj => h j (by simp [Expr.appIds, hj])
    simp [Expr.eval, hi, ih he]

/-- Inversion of a successful construction: the cleaned chain, the input
placeholder and the generated updates exist, and the network is the record
`mkNetwork` assembles from them. -/
lemma construct_ok {hook : ParamHook} {conn : PyConnection} {err : ErrorFn}
    {cfg : NetConfig} {net : Network}
    (h : construct hook conn err cfg = .ok net) :
    ∃ c inputVar updates,
      clean_layers conn = .ok c ∧
      create_input_variable c.first "x" = .ok inputVar ∧
      init_train_updates hook c.toList.dropLast = .ok updates ∧
      net = mkNetwork c err cfg inputVar updates := by
  unfold construct at h
  split at h
  · exact absurd h (by simp)
  · rename_i c heq
    split at h
    · exact absurd h (by simp)
    · rename_i v heq2
      split at h
      · exact absurd h (by simp)
      · rename_i u heq3
        injection h with h
        exact ⟨c, v, u, heq, heq2, heq3, h.symm⟩

/-- A two-argument hook never raises: the parameter loop concatenates its
results in declaration order. -/
lemma paramLoop_twoArg (f : Layer → Param → List UpdateRule) (layer : Layer)
    (acc : List UpdateRule) (ps : List Param) :
    paramLoop (.twoArg f) layer acc ps = .ok (acc ++ ps.flatMap (f layer)) := by
  induction ps generalizing acc with
  | nil => simp [paramLoop]
  | cons p t ih => simp [paramLoop, ParamHook.callWith2, ih]

/-- `init_layer_updates` under a two-argument hook: the concatenation of the
per-parameter results in declaration order. -/
lemma init_layer_updates_twoArg (f : Layer → Param → List UpdateRule) (l : Layer) :
    init_layer_updates (.twoArg f) l = .ok (l.parameters.flatMap (f l)) := by
  simp [init_layer_updates, paramLoop_twoArg]

/-- The layer loop under a two-argument hook concatenates the per-layer
results in pipeline order. -/
lemma layerLoop_twoArg (f : Layer → Param → List UpdateRule)
    (acc : List UpdateRule) (ls : List Layer) :
    layerLoop (.twoArg f) acc ls =
      .ok (acc ++ ls.flatMap fun l => l.parameters.flatMap (f l)) := by
  induction ls generalizing acc with
  | nil => simp [layerLoop]
  | cons l t ih => simp [layerLoop, init_layer_updates_twoArg, ih]

/-- `init_train_updates` under a two-argument hook: pipeline order, then
per-layer parameter declaration order. -/
lemma init_train_updates_twoArg (f : Layer → Param → List UpdateRule)
    (ls : List Layer) :
    init_train_updates (.twoArg f) ls =
      .ok (ls.flatMap fun l => l.parameters.flatMap (f l)) := by
  simp [init_train_updates, layerLoop_twoArg]

/-- Every layer id applied by the inference pass belongs to a non-Dropout
member of the folded layer list. -/
lemma appIds_prediction (ls : List Layer) (i : Nat)
    (hi : i ∈ (forwardPair ls).1.appIds) :
    ∃ l ∈ ls, l.isDropout = false ∧ l.id = i := by
  rw [forwardPair_eq] at hi
  rcases (mem_appIds_foldl _ _ _).1 hi with ⟨l, hl, hid⟩ | h0
  · have h2 := List.mem_filter.1 hl
    exact ⟨l, h2.1, by simpa using h2.2, hid⟩
  · simp [Expr.appIds] at h0

/-- Under pairwise-distinct layer ids, no id applied by the inference pass of
a sub-pipeline is the id of a Dropout layer of the full layer list. -/
lemma prediction_id_not_dropout (layers : List Layer)
    (hids : (layers.map Layer.id).Nodup) (train : List Layer)
    (hsub : train ⊆ layers) (i : Nat)
    (hi : i ∈ (forwardPair train).1.appIds) :
    i ∉ (layers.filter (fun l => l.isDropout)).map (fun l => l.id) := by
  intro hmem
  obtain ⟨l, hl, hnd, hid⟩ := appIds_prediction train i hi
  obtain ⟨d, hd, hdi⟩ := List.mem_map.1 hmem
  have hd2 := List.mem_filter.1 hd
  have hld : l = d :=
    List.inj_on_of_nodup_map hids (hsub hl) hd2.1 (by rw [hid, hdi])
  rw [hld, hd2.2] at hnd
  exact absurd hnd (by simp)

/-- The terminal layer of a chain closes its layer list. -/
lemma chain_dropLast_append (c : Chain) :
    c.toList.dropLast ++ [c.output_layer] = c.toList := by
  have h1 : c.toList ≠ [] := by simp [Chain.toList]
  have h2 : c.toList.getLast h1 = c.output_layer :=
    List.getLast_cons (List.cons_ne_nil _ _)
  rw [← h2]
  exact List.dropLast_append_getLast h1

/-- Under pairwise-distinct layer ids, the terminal layer's id is applied by
no trainable layer. -/
lemma output_id_not_in_dropLast (c : Chain)
    (hids : (c.toList.map Layer.id).Nodup) :
    c.output_layer.id ∉ c.toList.dropLast.map Layer.id := by
  rw [← chain_dropLast_append c, List.map_append] at hids
  intro hmem
  exact (List.nodup_append.mp hids).2.2 hmem (by simp)

/-- `create_input_variable` fails with `ValueError` exactly on ranks outside
{2, 3, 4}. -/
lemma create_input_variable_bad (l : Layer) (name : String)
    (h : l.ndim ∉ ([2, 3, 4] : List Nat)) :
    create_input_variable l name = .error .valueError := by
  have h2 : l.ndim ≠ 2 := fun hh => h (by simp [hh])
  have h3 : l.ndim ≠ 3 := fun hh => h (by simp [hh])
  have h4 : l.ndim ≠ 4 := fun hh => h (by simp [hh])
  simp [create_input_variable, h2, h3, h4]

/-- A successfully created input placeholder has the layer's declared rank. -/
lemma create_input_variable_rank (l : Layer) (name : String) (v : TensorVar)
    (h : create_input_variable l name = .ok v) : v.rank = l.ndim := by
  unfold create_input_variable at h
  split_ifs at h with h2 h3 h4
  · injection h with h; subst h; simpa [TensorVar.rank] using h2.symm
  · injection h with h; subst h; simpa [TensorVar.rank] using h3.symm
  · injection h with h; subst h; simpa [TensorVar.rank] using h4.symm

/-- `construct` after a successful `clean_layers`. -/
lemma construct_eq (hook : ParamHook) (conn : PyConnection) (err : ErrorFn)
    (cfg : NetConfig) (c : Chain) (hc : clean_layers conn = .ok c) :
    construct hook conn err cfg =
      match create_input_variable c.first "x" with
      | .error e => .error e
      | .ok inputVar =>
        match init_train_updates hook c.toList.dropLast with
        | .error e => .error e
        | .ok updates => .ok (mkNetwork c err cfg inputVar updates) := by
  unfold construct
  rw [hc]

/-- The call shape of the `predict_raw` wrapper. -/
lemma predict_raw_eval (net : Network) (itp : Interp) (s : Nat) (σ : NetState)
    (x : MLData) :
    net.predict_raw itp s σ x =
      (net.methods.predict_raw.outputs.eval itp net.dropoutIds s σ.params
        (format_data x (does_layer_accept_1d_feature net.input_layer)),
       applyUpdates net.methods.predict_raw.updates σ
        [format_data x (does_layer_accept_1d_feature net.input_layer)]) := rfl

/-- When the multi-layer list branch succeeds, the resulting chain's terminal
layer is an `Output` instance. -/
lemma cleanLayerList_ok (ls : List Layer) (c : Chain)
    (h : cleanLayerList ls = .ok c) : c.output_layer.isOutput = true := by
  cases ls with
  | nil => simp [cleanLayerList] at h
  | cons l1 t =>
    cases t with
    | nil => simp [cleanLayerList] at h
    | cons l2 rest =>
      simp only [cleanLayerList] at h
      split_ifs at h with hout
      · injection h with h
        subst h
        exact hout

/-! ### The claims -/

/-- C1: the claim is refuted by the code (code_bug).  With the default
(unoverridden) per-parameter hook, generating updates through the per-layer
path does not return the empty list: line 310 calls
`self.init_param_updates(layer, parameter)` with two positional arguments
while the default hook (line 313) is declared with one, so Python raises
`TypeError` for any layer owning a parameter, and constructing a network
over such a pipeline fails during compilation instead of producing a no-op
`train_epoch`. -/
theorem c1_default_hook_raises :
    init_layer_updates default_init_param_updates demoHidden = .error .typeError ∧
    construct default_init_param_updates (.layerList [demoHidden, demoOut])
      demoErr demoCfg = .error .typeError :=
  ⟨rfl, rfl⟩

/-- C2: the training pass applies every trainable layer's forward transform;
the inference pass applies every non-Dropout trainable layer's standard
forward (a Dropout layer's inference behavior is the identity, realized by
skipping it).  Consequently `prediction_func` and `train_prediction_func`
coincide exactly when no Dropout layer is present, and the presence of a
Dropout layer — whose training-mode application is structurally non-identity
— makes the two expressions diverge. -/
theorem c2_mode_divergence (ls : List Layer) :
    (forwardPair ls).2 = ls.foldl (fun e l => l.output e) Expr.input ∧
    (forwardPair ls).1 =
      (ls.filter fun l => !l.isDropout).foldl (fun e l => l.output e) Expr.input ∧
    ((∀ l ∈ ls, l.isDropout = false) → (forwardPair ls).1 = (forwardPair ls).2) ∧
    (∀ d ∈ ls, d.isDropout = true → (forwardPair ls).1 ≠ (forwardPair ls).2) := by
  have hfp := forwardPair_eq ls
  refine ⟨by rw [hfp], by rw [hfp], ?_, ?_⟩
  · intro hnone
    rw [hfp]
    have hfilter : ls.filter (fun l => !l.isDropout) = ls :=
      List.filter_eq_self.2 (fun a ha => by simp [hnone a ha])
    rw [hfilter]
  · intro d hd hdrop heq
    have h1 : (forwardPair ls).1.size = (ls.filter fun l => !l.isDropout).length := by
      have hs := size_foldl_output (ls.filter fun l => !l.isDropout) Expr.input
      rw [hfp]
      simpa [Expr.size] using hs
    have h2 : (forwardPair ls).2.size = ls.length := by
      have hs := size_foldl_output ls Expr.input
      rw [hfp]
      simpa [Expr.size] using hs
    have hlt : (ls.filter fun l => !l.isDropout).length < ls.length :=
      List.length_filter_lt_length_iff_exists.2 ⟨d, hd, by simp [hdrop]⟩
    rw [heq, h2] at h1
    omega

/-- C2 witness: a Dropout-free two-layer pipeline has coinciding expressions;
adding a Dropout layer makes them diverge. -/
theorem c2_mode_divergence_witness :
    (forwardPair [demoHidden, demoHidden2]).1 =
      (forwardPair [demoHidden, demoHidden2]).2 ∧
    (forwardPair [demoHidden, demoDrop]).1 ≠
      (forwardPair [demoHidden, demoDrop]).2 :=
  ⟨(c2_mode_divergence [demoHidden, demoHidden2]).2.2.1 (by decide),
   (c2_mode_divergence [demoHidden, demoDrop]).2.2.2 demoDrop (by decide) (by decide)⟩

/-- C3: when the normalized pipeline's input layer declares a weight rank
outside {2, 3, 4}, construction fails with the `ValueError` raised by
`create_input_variable` (the condition the spec names
`ShapeConfigurationError`) — so no network object and hence no compiled
procedure is produced — and whenever construction succeeds the input
placeholder's tensor rank equals the declared rank (which is therefore one
of 2, 3, 4). -/
theorem c3_input_rank (hook : ParamHook) (conn : PyConnection) (err : ErrorFn)
    (cfg : NetConfig) (c : Chain) (hc : clean_layers conn = .ok c) :
    (c.first.ndim ∉ ([2, 3, 4] : List Nat) →
      construct hook conn err cfg = .error .valueError) ∧
    ∀ net, construct hook conn err cfg = .ok net →
      net.vars.network_input.rank = c.first.ndim := by
  constructor
  · intro hn
    rw [construct_eq hook conn err cfg c hc,
        create_input_variable_bad c.first "x" hn]
  · intro net hnet
    obtain ⟨c2, v, u, hc2, hv, hu, rfl⟩ := construct_ok hnet
    rw [hc] at hc2
    injection hc2 with hc2
    subst hc2
    exact create_input_variable_rank _ "x" v hv

/-- C3 witness: rank 7 fails with ValueError; the successfully constructed
demo network's placeholder has the declared rank 2. -/
theorem c3_input_rank_witness :
    construct (.twoArg demoHook)
      (.layerList [{ demoHidden with ndim := 7 }, demoOut]) demoErr demoCfg
      = .error .valueError ∧
    demoNet.vars.network_input.rank = demoChain.first.ndim :=
  ⟨(c3_input_rank (.twoArg demoHook)
      (.layerList [{ demoHidden with ndim := 7 }, demoOut]) demoErr demoCfg
      ⟨{ demoHidden with ndim := 7 }, demoOut, []⟩ rfl).1 (by decide),
   (c3_input_rank (.twoArg demoHook) (.layerList [demoHidden, demoOut])
      demoErr demoCfg demoChain rfl).2 demoNet rfl⟩

/-- C4 (amended): any success of `clean_layers` yields a chain whose
terminal layer is an `Output` instance, and on every multi-layer list and
every pre-linked chain the outcome is exactly: the chain itself when the
terminal layer is output-capable, and `NetworkConnectionError` (the class
the spec calls `NetworkConfigurationError`) otherwise.  The claim's
unqualified success direction fails for single-element lists, whose
normalization raises `AttributeError` even with an output-capable element:
see the counterexample. -/
theorem c4_terminal_validation :
    (∀ conn c, clean_layers conn = .ok c → c.output_layer.isOutput = true) ∧
    (∀ l1 l2 rest,
      clean_layers (.layerList (l1 :: l2 :: rest)) =
        if (Chain.mk l1 l2 rest).output_layer.isOutput then .ok (Chain.mk l1 l2 rest)
        else .error .networkConnectionError) ∧
    (∀ c : Chain,
      clean_layers (.chain c) =
        if c.output_layer.isOutput then .ok c
        else .error .networkConnectionError) := by
  refine ⟨?_, fun l1 l2 rest => rfl, fun c => rfl⟩
  intro conn c h
  cases conn with
  | intList ns => exact cleanLayerList_ok _ _ h
  | layerList ls => exact cleanLayerList_ok _ _ h
  | connList cs =>
    simp only [clean_layers] at h
    split_ifs at h
  | chain c2 =>
    simp only [clean_layers] at h
    split_ifs at h with hout
    · injection h with h
      subst h
      exact hout

/-- C4 witness: the validated demo chain's terminal layer is output-capable. -/
theorem c4_terminal_validation_witness :
    demoChain.output_layer.isOutput = true :=
  c4_terminal_validation.1 (.chain demoChain) demoChain rfl

/-- C4 counterexample: a connection whose terminal element is output-capable
(the single-element list holding one `Output` layer) on which normalization
nevertheless does not succeed: the popped bare layer carries no
`output_layer` attribute, so `AttributeError` is raised. -/
theorem c4_counterexample :
    demoOut.isOutput = true ∧
    clean_layers (.layerList [demoOut]) = .error .attributeError :=
  ⟨rfl, rfl⟩

/-- C5: under any (two-argument) override of the per-parameter hook, the
generated update sequence is exactly the concatenation of the per-parameter
hook results, ordered by pipeline position of the owning layer (terminal
layer excluded) and then by parameter declaration order; and exactly this
list is what the `train_epoch` compilation receives. -/
theorem c5_update_order (f : Layer → Param → List UpdateRule) (ls : List Layer)
    (conn : PyConnection) (err : ErrorFn) (cfg : NetConfig) (net : Network)
    (h : construct (.twoArg f) conn err cfg = .ok net) :
    init_train_updates (.twoArg f) ls =
      .ok (ls.flatMap fun l => l.parameters.flatMap (f l)) ∧
    net.methods.train_epoch.updates =
      net.train_layers.flatMap fun l => l.parameters.flatMap (f l) := by
  refine ⟨init_train_updates_twoArg f ls, ?_⟩
  obtain ⟨c, v, u, hc, hv, hu, rfl⟩ := construct_ok h
  rw [init_train_updates_twoArg] at hu
  injection hu with hu
  exact hu.symm

/-- C5 witness: concrete update generation and the demo network's compiled
update list. -/
theorem c5_update_order_witness :
    init_train_updates (.twoArg demoHook) [demoHidden, demoHidden2] =
      .ok ([demoHidden, demoHidden2].flatMap fun l =>
        l.parameters.flatMap (demoHook l)) ∧
    demoNet.methods.train_epoch.updates =
      demoNet.train_layers.flatMap fun l => l.parameters.flatMap (demoHook l) :=
  c5_update_order demoHook [demoHidden, demoHidden2]
    (.layerList [demoHidden, demoOut]) demoErr demoCfg demoNet rfl

/-- C6: `predict_raw` is side-effect free (the post-call state is the
pre-call state) and deterministic (a second call on the same input, from the
state the first call left, returns the same value for any seeds of the
stochastic draws — its compiled expression applies no Dropout layer); and
`prediction_error` applies no updates, leaving every parameter value
unchanged. -/
theorem c6_predict_purity (hook : ParamHook) (conn : PyConnection) (err : ErrorFn)
    (cfg : NetConfig) (net : Network)
    (h : construct hook conn err cfg = .ok net)
    (hids : (net.layers.map Layer.id).Nodup)
    (itp : Interp) (s1 s2 : Nat) (σ : NetState) (x y : MLData) :
    (net.predict_raw itp s1 σ x).2 = σ ∧
    (net.predict_raw itp s2 ((net.predict_raw itp s1 σ x).2) x).1 =
      (net.predict_raw itp s1 σ x).1 ∧
    (net.prediction_error itp s1 σ x y).2 = σ := by
  obtain ⟨c, v, u, hc, hv, hu, rfl⟩ := construct_ok h
  refine ⟨rfl, ?_, rfl⟩
  have hkey : ∀ i ∈ (forwardPair c.toList.dropLast).1.appIds,
      i ∉ ((c.toList.filter (fun l => l.isDropout)).map (fun l => l.id)) := by
    intro i hi
    exact prediction_id_not_dropout c.toList hids c.toList.dropLast
      (List.dropLast_sublist c.toList).subset i hi
  exact eval_seed_irrel _ _ _ _ _ hkey s2 s1

/-- C6 witness: concrete purity and determinism of the demo network. -/
theorem c6_predict_purity_witness :
    (demoNet.predict_raw demoItp 1 demoState (.vec [4])).2 = demoState ∧
    (demoNet.predict_raw demoItp 2
        ((demoNet.predict_raw demoItp 1 demoState (.vec [4])).2) (.vec [4])).1 =
      (demoNet.predict_raw demoItp 1 demoState (.vec [4])).1 ∧
    (demoNet.prediction_error demoItp 1 demoState (.vec [4]) (.vec [9])).2 =
      demoState :=
  c6_predict_purity (.twoArg demoHook) (.layerList [demoHidden, demoOut])
    demoErr demoCfg demoNet rfl (by decide) demoItp 1 2 demoState
    (.vec [4]) (.vec [9])

/-- C7: `predict` is exactly the terminal layer's own forward transform
applied, at call time, to the value `predict_raw` returns; and the terminal
layer's transform is not part of the compiled prediction expression (its id
is applied nowhere in it, given pairwise-distinct layer ids). -/
theorem c7_predict_postprocess (hook : ParamHook) (conn : PyConnection)
    (err : ErrorFn) (cfg : NetConfig) (net : Network)
    (h : construct hook conn err cfg = .ok net)
    (hids : (net.layers.map Layer.id).Nodup)
    (itp : Interp) (s : Nat) (σ : NetState) (x : MLData) :
    (net.predict itp s σ x).1 =
      net.output_layer.outputData itp s σ.params (net.predict_raw itp s σ x).1 ∧
    net.output_layer.id ∉ net.methods.predict_raw.outputs.appIds := by
  obtain ⟨c, v, u, hc, hv, hu, rfl⟩ := construct_ok h
  refine ⟨rfl, ?_⟩
  intro hmem
  have hmem2 : c.output_layer.id ∈ (forwardPair c.toList.dropLast).1.appIds := hmem
  obtain ⟨l, hl, hnd, hid⟩ := appIds_prediction c.toList.dropLast _ hmem2
  exact output_id_not_in_dropLast c hids (List.mem_map.2 ⟨l, hl, hid⟩)

/-- C7 witness: concrete post-processing equality and absence of the
terminal layer from the demo network's compiled prediction expression. -/
theorem c7_predict_postprocess_witness :
    (demoNet.predict demoItp 1 demoState (.vec [4])).1 =
      demoNet.output_layer.outputData demoItp 1 demoState.params
        (demoNet.predict_raw demoItp 1 demoState (.vec [4])).1 ∧
    demoNet.output_layer.id ∉ demoNet.methods.predict_raw.outputs.appIds :=
  c7_predict_postprocess (.twoArg demoHook) (.layerList [demoHidden, demoOut])
    demoErr demoCfg demoNet rfl (by decide) demoItp 1 demoState (.vec [4])

/-- C8: on each epoch boundary, `on_epoch_start_update` writes exactly the
current epoch index and the step scalar into the network's two mutable
scalar graph cells (the step write coming from the spec-modelled base
class), and changes nothing else of the graph state: every parameter value
is untouched. -/
theorem c8_epoch_start_frame (net : Network) (epoch : Int) (σ : NetState) :
    (net.on_epoch_start_update epoch σ).params = σ.params ∧
    (net.on_epoch_start_update epoch σ).epochVar = epoch ∧
    (net.on_epoch_start_update epoch σ).stepVar = net.step ∧
    net.on_epoch_start_update epoch σ =
      { σ with epochVar := epoch, stepVar := net.step } :=
  ⟨rfl, rfl, rfl, rfl⟩

/-- C9 (amended): every single-layer topology — a one-integer list or a
one-layer list — fails synchronously during normalization, but with
`AttributeError` (reading `output_layer` off the popped bare layer), not
with the `NetworkConnectionError` kind signalled by the terminal-layer
validation. -/
theorem c9_single_layer (n : Nat) (l : Layer) :
    clean_layers (.intList [n]) = .error .attributeError ∧
    clean_layers (.layerList [l]) = .error .attributeError :=
  ⟨rfl, rfl⟩

/-- C9 counterexample: the concrete single-layer topology `[demoHidden]`
signals `AttributeError`, which is not the `NetworkConnectionError` kind of
the terminal-layer validation failure. -/
theorem c9_counterexample :
    clean_layers (.layerList [demoHidden]) = .error .attributeError ∧
    PyError.attributeError ≠ PyError.networkConnectionError :=
  ⟨rfl, by decide⟩

/-- C10: `train_epoch` hands its two arguments to the compiled training
procedure verbatim, while `prediction_error`, `predict_raw` and `train`
first reshape theirs through `format_data` — which is not the identity on
1-D data, so callers of `train_epoch` must supply pre-formatted data. -/
theorem c10_train_epoch_no_format (net : Network) (itp : Interp) (s : Nat)
    (σ : NetState) (x y : MLData) :
    net.train_epoch itp s σ x y =
      net.methods.train_epoch.callLoss itp net.dropoutIds net.error s σ x y ∧
    net.prediction_error itp s σ x y =
      net.methods.prediction_error.callLoss itp net.dropoutIds net.error s σ
        (format_data x true) (format_data y true) ∧
    net.predict_raw itp s σ x =
      net.methods.predict_raw.callPredict itp net.dropoutIds s σ
        (format_data x (does_layer_accept_1d_feature net.input_layer)) ∧
    net.train x y none none =
      (format_data x (does_layer_accept_1d_feature net.input_layer),
       format_data y (does_layer_accept_1d_feature net.output_layer),
       none, none) ∧
    format_data (.vec [0]) true ≠ .vec [0] :=
  ⟨rfl, rfl, rfl, rfl, by decide⟩

end Neupy
